import Mathlib

/-!
Shallow embedding of `src/pylon_camera/pylon_camera_node.cpp` from the
pylon-ros-camera driver, with proofs about its grab paths, the
sequence-capture action callback, and the exposure and brightness services.

Modelling conventions:
- The device SDK is a `Device`: a stream of grab outcomes indexed by the
  number of grab calls made so far, plus the removal flag read by
  `isCamRemoved`.
- ROS side effects are made explicit: a `ros shutdown` request becomes a
  counter, the WARN/INFO log on a non-removed grab failure becomes the
  `recoverableCount` counter, `ros Time now` is the `now` field (constant
  within one call), and message buffers are fields of `NodeState`.
- Polling loops run in ticks of the loop rate (5 Hz for the exposure and
  brightness waits), so one tick is 0.2 time units; the 5 and 15 second
  deadlines are 25 and 75 ticks.
- Machine integers become `Nat`/`Int`; `float` exposure values become
  `Rat`. Pixel data is a `List Nat` of byte values.
-/

namespace PylonCameraNode

/-- The device SDK as seen through the `pylon_camera_` pointer: the result
of the i-th grab call overall (`some frame` on success, `none` on failure)
and the removal flag returned by `isCamRemoved`. -/
structure Device where
  grabs : Nat → Option (List Nat)
  removed : Bool

/-- Node state threaded through the grab paths: the `img_raw_msg_` pixel
buffer and stamp, the `cam_info_msg_` stamp, a counter of writes into the
pixel buffer, counters for shutdown requests and for failures logged as
recoverable, the number of grab calls made so far, and the current time. -/
structure NodeState where
  imgData : List Nat
  imgStamp : Nat
  camInfoStamp : Nat
  frameWrites : Nat
  shutdownCount : Nat
  recoverableCount : Nat
  grabIdx : Nat
  now : Nat
deriving Repr, DecidableEq

/-- `PylonCameraNode::grabImage`: one grab into `img_raw_msg_.data`; on
success both stamps are refreshed; on failure with the camera removed a
process shutdown is requested, otherwise the failure is logged as a
recoverable skip. (What the SDK leaves in the passed buffer on a failed
grab is unspecified; the model leaves it unchanged, and no claim depends
on it.) -/
def grabImage (dev : Device) (s : NodeState) : Bool × NodeState :=
  match dev.grabs s.grabIdx with
  | some frame =>
      (true, { s with imgData := frame, imgStamp := s.now, camInfoStamp := s.now,
                      frameWrites := s.frameWrites + 1, grabIdx := s.grabIdx + 1 })
  | none =>
      if dev.removed then
        (false, { s with shutdownCount := s.shutdownCount + 1, grabIdx := s.grabIdx + 1 })
      else
        (false, { s with recoverableCount := s.recoverableCount + 1, grabIdx := s.grabIdx + 1 })

/-- Loop of `PylonCameraNode::grabSequence`: first argument is the number
of remaining iterations, then the loop counter `i` and the running
`success` flag. Each iteration grabs into the temporary per-burst buffer;
on failure with the camera removed a shutdown is requested, otherwise the
failure is logged, and `success` becomes false; then, at `i = mid` with
`success` still true, the temporary buffer is copied into
`img_raw_msg_.data` with a fresh stamp. -/
def grabSeqLoop (dev : Device) (mid : Nat) : Nat → Nat → Bool → NodeState → Bool × NodeState
  | 0, _, success, s => (success, s)
  | Nat.succ m, i, success, s =>
      match dev.grabs s.grabIdx with
      | some frame =>
          let s1 := { s with grabIdx := s.grabIdx + 1 }
          let s2 := if i = mid ∧ success = true then
              { s1 with imgData := frame, imgStamp := s1.now,
                        frameWrites := s1.frameWrites + 1 }
            else s1
          grabSeqLoop dev mid m (i + 1) success s2
      | none =>
          let s1 := { s with grabIdx := s.grabIdx + 1,
                             shutdownCount := s.shutdownCount + (if dev.removed then 1 else 0),
                             recoverableCount :=
                               s.recoverableCount + (if dev.removed then 0 else 1) }
          grabSeqLoop dev mid m (i + 1) false s1

/-- `PylonCameraNode::grabSequence` over the `n` configured exposure times,
with `mid = n / 2`; on overall success the `cam_info_msg_` stamp is synced
to the image stamp. -/
def grabSequence (dev : Device) (n : Nat) (s0 : NodeState) : Bool × NodeState :=
  match grabSeqLoop dev (n / 2) n 0 true s0 with
  | (true, s) => (true, { s with camInfoStamp := s.imgStamp })
  | (false, s) => (false, s)

/-- The action result of `sequenceRawActionExecuteCB`: the per-exposure
images (pixel data only; the static per-image metadata is fixed session
data) and the overall success flag. -/
structure SeqResult where
  images : List (List Nat)
  success : Bool
deriving Repr, DecidableEq

/-- Loop of `PylonCameraNode::sequenceRawActionExecuteCB`: grab each of the
remaining exposures into its own result slot; any failure clears `success`
but the loop continues; a failed grab leaves an empty slot. The camera
removal flag is never consulted on this path and no shutdown is requested. -/
def seqCBLoop (dev : Device) : Nat → List (List Nat) → Bool → NodeState →
    List (List Nat) × Bool × NodeState
  | 0, imgs, success, s => (imgs, success, s)
  | Nat.succ m, imgs, success, s =>
      match dev.grabs s.grabIdx with
      | some frame =>
          seqCBLoop dev m (imgs ++ [frame]) success { s with grabIdx := s.grabIdx + 1 }
      | none =>
          seqCBLoop dev m (imgs ++ [[]]) false { s with grabIdx := s.grabIdx + 1 }

/-- `PylonCameraNode::sequenceRawActionExecuteCB` over `n` configured
exposures: run the grab loop, then, if any grab failed, clear the whole
image list before reporting. -/
def sequenceRawActionExecuteCB (dev : Device) (n : Nat) (s0 : NodeState) :
    SeqResult × NodeState :=
  match seqCBLoop dev n [] true s0 with
  | (imgs, success, s) =>
      if success = true then ({ images := imgs, success := true }, s)
      else ({ images := [], success := false }, s)

/-- `PylonCameraNode::calcCurrentBrightness`: sum of the pixel bytes of
`img_raw_msg_.data` divided by the byte count. The C++ division is an
integer division (int by size_t; the cast back to int through a float is
exact for these magnitudes), so the mean is truncated, not rounded. An
empty buffer fails the assertion and divides by zero; this undefined case
is modelled as `none`. -/
def calcCurrentBrightness (data : List Nat) : Option Nat :=
  if data.length = 0 then none
  else some (data.sum / data.length)

/-- Modelled from the spec, for comparison with `calcCurrentBrightness`:
the spec words brightness as `round(mean(pixel bytes))`, the mean rounded
to the NEAREST integer. Rounding half up: round of `s / n` is
`(2 * s + n) / (2 * n)`. -/
def roundMeanBrightness (data : List Nat) : Nat :=
  (2 * data.sum + data.length) / (2 * data.length)

/-- `PylonCameraNode::brightnessValidation`: compare the target with the
given measured mean; fail exactly when they differ by more than 2. -/
def brightnessValidation (target mean : Int) : Bool :=
  if 2 < |target - mean| then false else true

inductive ExpResult
  | notReady
  | converged
  | timedOut
deriving Repr, DecidableEq

/-- Wait loop of `PylonCameraNode::setExposureCallback` at 5 Hz: at tick
`t` re-read the exposure; converged when within one device exposure step of
the target; once the elapsed time exceeds the 5 second deadline (25 ticks),
fail. The first argument only makes the recursion structural; 27 is enough
fuel to reach the deadline from tick 0. -/
def expLoopF (read : Nat → Rat) (step target : Rat) : Nat → Nat → ExpResult
  | 0, _ => ExpResult.timedOut
  | Nat.succ fuel, t =>
      if |read t - target| < step then ExpResult.converged
      else if 25 < t then ExpResult.timedOut
      else expLoopF read step target fuel (t + 1)

/-- `PylonCameraNode::setExposureCallback`: fail when the device is not
ready; issue the single corrective `setExposure` device write exactly when
the currently read exposure differs from the target (exact equality, not a
tolerance test); then enter the wait loop, which issues no further writes.
Returns the loop result and the number of device writes issued. -/
def setExposureCallback (ready : Bool) (read : Nat → Rat) (step target : Rat) :
    ExpResult × Nat :=
  if ready = false then (ExpResult.notReady, 0)
  else
    let writes : Nat := if read 0 ≠ target then 1 else 0
    (expLoopF read step target 27 0, writes)

inductive BrExit
  | timeout (t : Nat)
  | flagCleared (t : Nat)
deriving Repr, DecidableEq

/-- Wait loop of `PylonCameraNode::setBrightnessCallback` at 5 Hz: while
the liveness flag `brightness_service_running_` is set, check the deadline
of `Dt` ticks; once past it, report a timeout at the current tick. Each
iteration spins, which may update the flag: `flagAt t` is its value after
the spin of tick `t`. The first argument only makes the recursion
structural; `Dt + 2` is enough fuel from tick 0. -/
def brLoopF (flagAt : Nat → Bool) (Dt : Nat) : Nat → Nat → Bool → BrExit
  | 0, t, _ => BrExit.timeout t
  | Nat.succ fuel, t, flag =>
      if flag = false then BrExit.flagCleared t
      else if Dt < t then BrExit.timeout t
      else brLoopF flagAt Dt fuel (t + 1) (flagAt t)

/-- The brightness wait loop started at tick 0 with the flag just set. -/
def brLoop (flagAt : Nat → Bool) (Dt : Nat) : BrExit :=
  brLoopF flagAt Dt (Dt + 2) 0 true

/-- Deadline of the brightness wait in ticks of 0.2 time units: 15 units
(75 ticks) for targets above 205, otherwise 5 units (25 ticks). -/
def brDeadlineTicks (target : Int) : Nat :=
  if 205 < target then 75 else 25

/-- Observable outcome of one `setBrightnessCallback` call. -/
structure BrOutcome where
  success : Bool
  validationRan : Bool
  wrote : Bool
  flagAfter : Bool
  exitTick : Nat
deriving Repr, DecidableEq

/-- `PylonCameraNode::setBrightnessCallback`. `measure t` is the value of
`calcCurrentBrightness` on the frame current at tick `t`; `flagAt` is the
evolution of the liveness flag during the wait. The 3 second readiness wait
is collapsed to its boolean outcome `ready`, which no claim depends on.
The liveness flag is set to true BEFORE the equality check, and the
equal-brightness early return leaves it set (`flagAfter`). On deadline
expiry the flag is force-cleared and failure is reported without running
validation; when the flag clears, the result is the frame-based validation
at the exit tick. `wrote` records whether the corrective `setBrightness`
device write was issued. -/
def setBrightnessCallback (ready : Bool) (measure : Nat → Int) (flagAt : Nat → Bool)
    (target : Int) : BrOutcome :=
  if ready = false then
    { success := false, validationRan := false, wrote := false,
      flagAfter := false, exitTick := 0 }
  else if measure 0 = target then
    { success := true, validationRan := false, wrote := false,
      flagAfter := true, exitTick := 0 }
  else
    match brLoop flagAt (brDeadlineTicks target) with
    | BrExit.timeout t =>
        { success := false, validationRan := false, wrote := true,
          flagAfter := false, exitTick := t }
    | BrExit.flagCleared t =>
        { success := brightnessValidation target (measure t), validationRan := true,
          wrote := true, flagAfter := false, exitTick := t }

/-! Helper lemmas about the loops. -/

theorem seqCBLoop_false_stays (dev : Device) :
    ∀ (m : Nat) (imgs : List (List Nat)) (s : NodeState),
      (seqCBLoop dev m imgs false s).2.1 = false := by
  intro m
  induction m with
  | zero => intro imgs s; rfl
  | succ m ih =>
      intro imgs s
      cases h : dev.grabs s.grabIdx with
      | some frame => simp only [seqCBLoop, h]; exact ih _ _
      | none => simp only [seqCBLoop, h]; exact ih _ _

theorem seqCBLoop_fail_of_exists (dev : Device) :
    ∀ (m : Nat) (imgs : List (List Nat)) (s : NodeState),
      (∃ j, j < m ∧ dev.grabs (s.grabIdx + j) = none) →
      (seqCBLoop dev m imgs true s).2.1 = false := by
  intro m
  induction m with
  | zero =>
      intro imgs s h
      obtain ⟨j, hj, _⟩ := h
      omega
  | succ m ih =>
      intro imgs s h
      obtain ⟨j, hj, hfail⟩ := h
      cases hg : dev.grabs s.grabIdx with
      | some frame =>
          have hj0 : j ≠ 0 := by
            intro h0
            rw [h0, Nat.add_zero] at hfail
            rw [hg] at hfail
            exact Option.noConfusion hfail
          simp only [seqCBLoop, hg]
          exact ih _ _ ⟨j - 1, by omega, by
            have : s.grabIdx + 1 + (j - 1) = s.grabIdx + j := by omega
            rw [this]
            exact hfail⟩
      | none =>
          simp only [seqCBLoop, hg]
          exact seqCBLoop_false_stays dev m _ _

theorem seqCBLoop_shutdown_eq (dev : Device) :
    ∀ (m : Nat) (imgs : List (List Nat)) (b : Bool) (s : NodeState),
      (seqCBLoop dev m imgs b s).2.2.shutdownCount = s.shutdownCount := by
  intro m
  induction m with
  | zero => intro imgs b s; rfl
  | succ m ih =>
      intro imgs b s
      cases h : dev.grabs s.grabIdx with
      | some frame => simp only [seqCBLoop, h]; exact ih _ _ _
      | none => simp only [seqCBLoop, h]; exact ih _ _ _

theorem grabSeqLoop_false_stays (dev : Device) (mid : Nat) :
    ∀ (m i : Nat) (s : NodeState),
      (grabSeqLoop dev mid m i false s).1 = false ∧
      (grabSeqLoop dev mid m i false s).2.imgData = s.imgData ∧
      (grabSeqLoop dev mid m i false s).2.imgStamp = s.imgStamp ∧
      (grabSeqLoop dev mid m i false s).2.frameWrites = s.frameWrites := by
  intro m
  induction m with
  | zero => intro i s; exact ⟨rfl, rfl, rfl, rfl⟩
  | succ m ih =>
      intro i s
      cases h : dev.grabs s.grabIdx with
      | some frame =>
          simp only [grabSeqLoop, h, Bool.false_eq_true, and_false, if_false]
          exact ih _ _
      | none =>
          simp only [grabSeqLoop, h]
          exact ih _ _

theorem grabSeqLoop_all_ok (dev : Device) (F : Nat → List Nat)
    (hall : ∀ j, dev.grabs j = some (F j)) (mid : Nat) :
    ∀ (m i : Nat) (s : NodeState),
      (grabSeqLoop dev mid m i true s).1 = true ∧
      (grabSeqLoop dev mid m i true s).2.grabIdx = s.grabIdx + m ∧
      (grabSeqLoop dev mid m i true s).2.now = s.now ∧
      (grabSeqLoop dev mid m i true s).2.shutdownCount = s.shutdownCount ∧
      (grabSeqLoop dev mid m i true s).2.recoverableCount = s.recoverableCount ∧
      ((i ≤ mid ∧ mid < i + m) →
          (grabSeqLoop dev mid m i true s).2.imgData = F (s.grabIdx + (mid - i)) ∧
          (grabSeqLoop dev mid m i true s).2.imgStamp = s.now ∧
          (grabSeqLoop dev mid m i true s).2.frameWrites = s.frameWrites + 1) ∧
      (¬(i ≤ mid ∧ mid < i + m) →
          (grabSeqLoop dev mid m i true s).2.imgData = s.imgData ∧
          (grabSeqLoop dev mid m i true s).2.imgStamp = s.imgStamp ∧
          (grabSeqLoop dev mid m i true s).2.frameWrites = s.frameWrites) := by
  intro m
  induction m with
  | zero =>
      intro i s
      refine ⟨rfl, rfl, rfl, rfl, rfl, ?_, fun _ => ⟨rfl, rfl, rfl⟩⟩
      intro hcond
      omega
  | succ m ih =>
      intro i s
      simp only [grabSeqLoop, hall s.grabIdx]
      by_cases hc : i = mid
      · simp only [hc, and_true, if_true, eq_self_iff_true, true_and, if_pos rfl]
        obtain ⟨h1, h2, h3, h4, h5, h6, h7⟩ := ih (mid + 1)
          { s with imgData := F s.grabIdx, imgStamp := s.now,
                   frameWrites := s.frameWrites + 1, grabIdx := s.grabIdx + 1 }
        have hnot : ¬(mid + 1 ≤ mid ∧ mid < mid + 1 + m) := by omega
        obtain ⟨e1, e2, e3⟩ := h7 hnot
        refine ⟨h1, by rw [h2]; simp; omega, by rw [h3], by rw [h4], by rw [h5], ?_, ?_⟩
        · intro _
          refine ⟨?_, ?_, ?_⟩
          · rw [e1]
            have : s.grabIdx + (mid - mid) = s.grabIdx := by omega
            rw [this]
          · rw [e2]
          · rw [e3]
        · intro hcond
          omega
      · simp only [hc, false_and, if_false]
        obtain ⟨h1, h2, h3, h4, h5, h6, h7⟩ := ih (i + 1) { s with grabIdx := s.grabIdx + 1 }
        refine ⟨h1, by rw [h2]; simp; omega, by rw [h3], by rw [h4], by rw [h5], ?_, ?_⟩
        · intro hcond
          have hcond2 : i + 1 ≤ mid ∧ mid < i + 1 + m := by omega
          obtain ⟨e1, e2, e3⟩ := h6 hcond2
          refine ⟨?_, by rw [e2], by rw [e3]⟩
          rw [e1]
          have : (({ s with grabIdx := s.grabIdx + 1 } : NodeState).grabIdx + (mid - (i + 1)))
              = s.grabIdx + (mid - i) := by simp; omega
          rw [this]
        · intro hcond
          have hcond2 : ¬(i + 1 ≤ mid ∧ mid < i + 1 + m) := by omega
          obtain ⟨e1, e2, e3⟩ := h7 hcond2
          exact ⟨by rw [e1], by rw [e2], by rw [e3]⟩

theorem grabSeqLoop_early_fail (dev : Device) (mid : Nat) :
    ∀ (m i : Nat) (s : NodeState),
      (∃ j, j < m ∧ i + j ≤ mid ∧ dev.grabs (s.grabIdx + j) = none) →
      (grabSeqLoop dev mid m i true s).1 = false ∧
      (grabSeqLoop dev mid m i true s).2.imgData = s.imgData ∧
      (grabSeqLoop dev mid m i true s).2.imgStamp = s.imgStamp ∧
      (grabSeqLoop dev mid m i true s).2.frameWrites = s.frameWrites := by
  intro m
  induction m with
  | zero =>
      intro i s h
      obtain ⟨j, hj, _, _⟩ := h
      omega
  | succ m ih =>
      intro i s h
      obtain ⟨j, hj, hmid, hfail⟩ := h
      cases hg : dev.grabs s.grabIdx with
      | some frame =>
          have hj0 : j ≠ 0 := by
            intro h0
            rw [h0, Nat.add_zero] at hfail
            rw [hg] at hfail
            exact Option.noConfusion hfail
          have hc : i ≠ mid := by omega
          simp only [grabSeqLoop, hg, hc, false_and, if_false]
          exact ih _ _ ⟨j - 1, by omega, by omega, by
            have : s.grabIdx + 1 + (j - 1) = s.grabIdx + j := by omega
            rw [this]
            exact hfail⟩
      | none =>
          simp only [grabSeqLoop, hg]
          exact grabSeqLoop_false_stays dev mid m _ _

theorem grabSeqLoop_all_fail (dev : Device) (hrem : dev.removed = true)
    (hfail : ∀ j, dev.grabs j = none) (mid : Nat) :
    ∀ (m i : Nat) (b : Bool) (s : NodeState),
      (grabSeqLoop dev mid m i b s).2.shutdownCount = s.shutdownCount + m ∧
      (grabSeqLoop dev mid m i b s).2.recoverableCount = s.recoverableCount ∧
      (1 ≤ m → (grabSeqLoop dev mid m i b s).1 = false) := by
  intro m
  induction m with
  | zero => intro i b s; exact ⟨rfl, rfl, by omega⟩
  | succ m ih =>
      intro i b s
      simp only [grabSeqLoop, hfail s.grabIdx, hrem, if_true]
      obtain ⟨h1, h2, _⟩ := ih (i + 1) false
        { s with grabIdx := s.grabIdx + 1,
                 shutdownCount := s.shutdownCount + 1,
                 recoverableCount := s.recoverableCount + 0 }
      refine ⟨by rw [h1]; simp; omega, by rw [h2]; simp, fun _ => ?_⟩
      exact (grabSeqLoop_false_stays dev mid m (i + 1) _).1

theorem brLoopF_flag_true (flagAt : Nat → Bool) (h : ∀ u, flagAt u = true) (Dt : Nat) :
    ∀ (fuel t : Nat), t + fuel = Dt + 2 → t ≤ Dt + 1 →
      brLoopF flagAt Dt fuel t true = BrExit.timeout (Dt + 1) := by
  intro fuel
  induction fuel with
  | zero => intro t h1 h2; omega
  | succ fuel ih =>
      intro t h1 h2
      by_cases hDt : Dt < t
      · have ht : t = Dt + 1 := by omega
        simp [brLoopF, hDt, ht]
      · simp only [brLoopF, Bool.true_eq_false, if_false, hDt]
        rw [h t]
        exact ih (t + 1) (by omega) (by omega)

theorem brLoop_flag_true (flagAt : Nat → Bool) (h : ∀ u, flagAt u = true) (Dt : Nat) :
    brLoop flagAt Dt = BrExit.timeout (Dt + 1) :=
  brLoopF_flag_true flagAt h Dt (Dt + 2) 0 (by omega) (by omega)

/-! Concrete inputs for witnesses and counterexamples. -/

/-- A concrete start state: one published pixel `[7]`, stamps 0, counters 0,
current time 1. -/
def st0 : NodeState :=
  { imgData := [7], imgStamp := 0, camInfoStamp := 0, frameWrites := 0,
    shutdownCount := 0, recoverableCount := 0, grabIdx := 0, now := 1 }

/-- A removed camera: every grab fails and `isCamRemoved` is true. -/
def remDev : Device := { grabs := fun _ => none, removed := true }

/-- A healthy camera delivering the one-pixel frame `[j]` on the j-th grab. -/
def okDev : Device := { grabs := fun j => some [j], removed := false }

/-- A camera failing only on the third grab (grab index 2), not removed. -/
def lateFailDev : Device :=
  { grabs := fun j => if j = 2 then none else some [10 * (j + 1)], removed := false }

/-- A camera failing on the first grab, not removed. -/
def firstFailDev : Device :=
  { grabs := fun j => if j = 0 then none else some [5], removed := false }

/-- The liveness flag evolution that never clears. -/
def alwaysTrueFlag : Nat → Bool := fun _ => true

/-- A liveness flag evolution that clears after the spin of tick 2. -/
def clearsAt2Flag : Nat → Bool := fun t => decide (t < 2)

/-- Brightness 50 before the corrective write, then 100. -/
def jumpTo100 : Nat → Int := fun t => if t = 0 then 50 else 100

/-- Brightness 50 before the corrective write, then 101. -/
def jumpTo101 : Nat → Int := fun t => if t = 0 then 50 else 101

/-! Claim theorems. -/

/-- C1, counterexample: with a removed camera whose grabs all fail, the
sequence-capture action callback requests the process-termination signal
ZERO times (not exactly once) and reports the failure only through the
plain failed result, and a two-exposure internal burst requests it TWICE,
so the claim that every grab path triggers the fatal signal exactly once
is false on the code. -/
theorem c1_counterexample :
    (sequenceRawActionExecuteCB remDev 1 st0).2.shutdownCount = 0 ∧
    (sequenceRawActionExecuteCB remDev 1 st0).1.success = false ∧
    (grabSequence remDev 2 st0).2.shutdownCount = 2 := by
  decide

/-- C1 (amended): on a grab failure with the device removed, `grabImage`
requests the fatal process-termination signal exactly once and does not
count the failure as recoverable; `grabSequence` requests it once per
failing grab (hence `n` times over a burst of `n` all-failing grabs, which
can exceed one) and counts none of them as recoverable; the sequence
action callback never requests the fatal signal and reports the failure
only as an overall failed result, indistinguishable from a recoverable
failure. -/
theorem c1_removed_failure_paths (dev : Device) (n : Nat) (s0 : NodeState)
    (hrem : dev.removed = true) (hfail : ∀ j, dev.grabs j = none) (hn : 1 ≤ n) :
    ((grabImage dev s0).1 = false ∧
      (grabImage dev s0).2.shutdownCount = s0.shutdownCount + 1 ∧
      (grabImage dev s0).2.recoverableCount = s0.recoverableCount) ∧
    ((grabSequence dev n s0).1 = false ∧
      (grabSequence dev n s0).2.shutdownCount = s0.shutdownCount + n ∧
      (grabSequence dev n s0).2.recoverableCount = s0.recoverableCount) ∧
    ((sequenceRawActionExecuteCB dev n s0).1.success = false ∧
      (sequenceRawActionExecuteCB dev n s0).2.shutdownCount = s0.shutdownCount) := by
  refine ⟨?_, ?_, ?_⟩
  · simp [grabImage, hfail s0.grabIdx, hrem]
  · have hall := grabSeqLoop_all_fail dev hrem hfail (n / 2) n 0 true s0
    rcases hr : grabSeqLoop dev (n / 2) n 0 true s0 with ⟨b, s⟩
    rw [hr] at hall
    obtain ⟨h1, h2, h3⟩ := hall
    have hb : b = false := h3 hn
    subst hb
    unfold grabSequence
    rw [hr]
    exact ⟨rfl, h1, h2⟩
  · have hsc := seqCBLoop_shutdown_eq dev n [] true s0
    have hfl := seqCBLoop_fail_of_exists dev n [] s0
      ⟨0, by omega, by rw [Nat.add_zero]; exact hfail _⟩
    rcases hr : seqCBLoop dev n [] true s0 with ⟨imgs, b, s⟩
    rw [hr] at hsc hfl
    have hb : b = false := hfl
    subst hb
    unfold sequenceRawActionExecuteCB
    rw [hr]
    simp
    exact hsc

/-- C1 witness: the amended theorem evaluated on the removed camera, one
exposure, from the concrete start state. -/
theorem c1_removed_failure_paths_witness :
    ((grabImage remDev st0).1 = false ∧
      (grabImage remDev st0).2.shutdownCount = 1 ∧
      (grabImage remDev st0).2.recoverableCount = 0) ∧
    ((grabSequence remDev 1 st0).1 = false ∧
      (grabSequence remDev 1 st0).2.shutdownCount = 1 ∧
      (grabSequence remDev 1 st0).2.recoverableCount = 0) ∧
    ((sequenceRawActionExecuteCB remDev 1 st0).1.success = false ∧
      (sequenceRawActionExecuteCB remDev 1 st0).2.shutdownCount = 0) := by
  have h := c1_removed_failure_paths remDev 1 st0 rfl (fun j => rfl) (by decide)
  simpa [st0] using h

/-- C2: if any grab of a sequence-capture burst fails, the reported result
has `success = false` and an empty image list, no matter how many grabs of
the burst succeeded. -/
theorem c2_burst_failure_clears_result (dev : Device) (n : Nat) (s0 : NodeState)
    (h : ∃ i, i < n ∧ dev.grabs (s0.grabIdx + i) = none) :
    (sequenceRawActionExecuteCB dev n s0).1.success = false ∧
    (sequenceRawActionExecuteCB dev n s0).1.images = [] := by
  have hfl := seqCBLoop_fail_of_exists dev n [] s0 h
  rcases hr : seqCBLoop dev n [] true s0 with ⟨imgs, b, s⟩
  rw [hr] at hfl
  have hb : b = false := hfl
  subst hb
  unfold sequenceRawActionExecuteCB
  rw [hr]
  simp

/-- C2 witness: the camera failing on its first grab, one exposure. -/
theorem c2_burst_failure_clears_result_witness :
    (sequenceRawActionExecuteCB firstFailDev 1 st0).1.success = false ∧
    (sequenceRawActionExecuteCB firstFailDev 1 st0).1.images = [] :=
  c2_burst_failure_clears_result firstFailDev 1 st0 ⟨0, by decide, by decide⟩

/-- C3, counterexample: with the liveness flag never clearing and the
measured brightness equal to the target 100 at the deadline, the service
reports failure WITHOUT running the frame-based validation, although the
claim says validation also runs on the deadline-expiry path and would have
reported success here (the validation predicate holds at the exit tick). -/
theorem c3_counterexample :
    (setBrightnessCallback true jumpTo100 alwaysTrueFlag 100).validationRan = false ∧
    (setBrightnessCallback true jumpTo100 alwaysTrueFlag 100).success = false ∧
    brightnessValidation 100
      (jumpTo100 (setBrightnessCallback true jumpTo100 alwaysTrueFlag 100).exitTick) = true := by
  decide

/-- C3 (amended): the frame-based validation runs exactly when the wait
loop exits because the liveness flag cleared, and then success is
`|measured - target| <= 2` on the latest frame; on deadline expiry the flag
is force-cleared and failure is reported WITHOUT running validation. -/
theorem c3_validation_only_on_flag_clear (measure : Nat → Int) (flagAt : Nat → Bool)
    (target : Int) (h : measure 0 ≠ target) :
    (∀ t, brLoop flagAt (brDeadlineTicks target) = BrExit.flagCleared t →
        (setBrightnessCallback true measure flagAt target).validationRan = true ∧
        (setBrightnessCallback true measure flagAt target).success =
          brightnessValidation target (measure t)) ∧
    (∀ t, brLoop flagAt (brDeadlineTicks target) = BrExit.timeout t →
        (setBrightnessCallback true measure flagAt target).validationRan = false ∧
        (setBrightnessCallback true measure flagAt target).success = false) := by
  constructor
  · intro t ht
    simp [setBrightnessCallback, h, ht]
  · intro t ht
    simp [setBrightnessCallback, h, ht]

/-- C3 witness: flag clears after tick 2, measured brightness 101 against
target 100 at the exit tick, so validation runs and succeeds. -/
theorem c3_validation_only_on_flag_clear_witness :
    (setBrightnessCallback true jumpTo101 clearsAt2Flag 100).validationRan = true ∧
    (setBrightnessCallback true jumpTo101 clearsAt2Flag 100).success = true := by
  have h := (c3_validation_only_on_flag_clear jumpTo101 clearsAt2Flag 100
    (by decide)).1 3 (by decide)
  exact ⟨h.1, by rw [h.2]; decide⟩

/-- C4: a fully successful burst of `n >= 1` grabs performs exactly `n`
grabs in request order, copies exactly the frame of the grab at burst index
`n / 2` into the frame buffer with the fresh current-time stamp, and writes
the buffer exactly once. -/
theorem c4_successful_burst_middle_frame (dev : Device) (F : Nat → List Nat) (n : Nat)
    (s0 : NodeState) (hall : ∀ j, dev.grabs j = some (F j)) (hn : 1 ≤ n) :
    (grabSequence dev n s0).1 = true ∧
    (grabSequence dev n s0).2.imgData = F (s0.grabIdx + n / 2) ∧
    (grabSequence dev n s0).2.imgStamp = s0.now ∧
    (grabSequence dev n s0).2.frameWrites = s0.frameWrites + 1 ∧
    (grabSequence dev n s0).2.grabIdx = s0.grabIdx + n := by
  have hall2 := grabSeqLoop_all_ok dev F hall (n / 2) n 0 s0
  rcases hr : grabSeqLoop dev (n / 2) n 0 true s0 with ⟨b, s⟩
  rw [hr] at hall2
  obtain ⟨h1, h2, h3, h4, h5, h6, h7⟩ := hall2
  have hb : b = true := h1
  subst hb
  have hcond : 0 ≤ n / 2 ∧ n / 2 < 0 + n := by omega
  obtain ⟨e1, e2, e3⟩ := h6 hcond
  unfold grabSequence
  rw [hr]
  exact ⟨rfl, e1, e2, e3, h2⟩

/-- C4 witness: the healthy camera over three exposures from the concrete
start state; the middle frame is the one of grab index 1. -/
theorem c4_successful_burst_middle_frame_witness :
    (grabSequence okDev 3 st0).1 = true ∧
    (grabSequence okDev 3 st0).2.imgData = [1] ∧
    (grabSequence okDev 3 st0).2.imgStamp = 1 ∧
    (grabSequence okDev 3 st0).2.frameWrites = 1 ∧
    (grabSequence okDev 3 st0).2.grabIdx = 3 := by
  have h := c4_successful_burst_middle_frame okDev (fun j => [j]) 3 st0 (fun j => rfl)
    (by decide)
  simpa [st0] using h

/-- C5, counterexample: a three-exposure burst whose third grab fails (an
index after the middle index 1) reports failure, yet the frame buffer has
been overwritten with the middle frame `[20]` and is no longer the
pre-burst frame `[7]`, so the claim that a mid-burst failure never alters
the published frame is false on the code. -/
theorem c5_counterexample :
    (grabSequence lateFailDev 3 st0).1 = false ∧
    (grabSequence lateFailDev 3 st0).2.imgData = [20] ∧
    st0.imgData = [7] ∧
    (grabSequence lateFailDev 3 st0).2.imgData ≠ st0.imgData := by
  decide

/-- C5 (amended): when some grab at a burst index at or before the middle
index `n / 2` fails, `grabSequence` reports failure and the frame buffer,
its stamp and the write counter are left unchanged; only a failure
strictly after the middle index can leave the buffer overwritten with the
middle frame. -/
theorem c5_early_burst_failure_preserves_frame (dev : Device) (n : Nat) (s0 : NodeState)
    (h : ∃ j, j < n ∧ j ≤ n / 2 ∧ dev.grabs (s0.grabIdx + j) = none) :
    (grabSequence dev n s0).1 = false ∧
    (grabSequence dev n s0).2.imgData = s0.imgData ∧
    (grabSequence dev n s0).2.imgStamp = s0.imgStamp ∧
    (grabSequence dev n s0).2.frameWrites = s0.frameWrites := by
  obtain ⟨j, hj, hjm, hfail⟩ := h
  have hef := grabSeqLoop_early_fail dev (n / 2) n 0 s0 ⟨j, hj, by omega, hfail⟩
  rcases hr : grabSeqLoop dev (n / 2) n 0 true s0 with ⟨b, s⟩
  rw [hr] at hef
  obtain ⟨h1, h2, h3, h4⟩ := hef
  have hb : b = false := h1
  subst hb
  unfold grabSequence
  rw [hr]
  exact ⟨rfl, h2, h3, h4⟩

/-- C5 witness: the camera failing on its first grab over one exposure
leaves the concrete start state frame `[7]` untouched. -/
theorem c5_early_burst_failure_preserves_frame_witness :
    (grabSequence firstFailDev 1 st0).1 = false ∧
    (grabSequence firstFailDev 1 st0).2.imgData = [7] ∧
    (grabSequence firstFailDev 1 st0).2.imgStamp = 0 ∧
    (grabSequence firstFailDev 1 st0).2.frameWrites = 0 := by
  have h := c5_early_burst_failure_preserves_frame firstFailDev 1 st0
    ⟨0, by decide, by decide, by decide⟩
  simpa [st0] using h

/-- C6, counterexample: on the two-pixel buffer `[1, 2]` the code computes
brightness 1 (truncated mean 3 / 2) while the spec formula
`round(mean(pixel bytes))` gives 2, so the brightness used by the service
is not the rounded mean. -/
theorem c6_counterexample :
    calcCurrentBrightness [1, 2] = some 1 ∧ roundMeanBrightness [1, 2] = 2 ∧
    (1 : Nat) ≠ 2 := by
  decide

/-- C6 (amended): for every populated frame buffer the brightness value
used by the brightness service is the TRUNCATED integer mean of the pixel
bytes, `floor(sum / count)`, not the mean rounded to nearest. -/
theorem c6_brightness_is_truncated_mean (data : List Nat) (h : data ≠ []) :
    calcCurrentBrightness data = some (data.sum / data.length) := by
  have hlen : data.length ≠ 0 := by simpa [List.length_eq_zero] using h
  simp [calcCurrentBrightness, hlen]

/-- C6 witness: the buffer `[3, 4]` has truncated mean 3. -/
theorem c6_brightness_is_truncated_mean_witness :
    calcCurrentBrightness [3, 4] = some 3 :=
  (c6_brightness_is_truncated_mean [3, 4] (by decide)).trans (by decide)

/-- C7: with the device ready, the corrective `setExposure` device write is
skipped exactly when the currently read exposure is exactly equal to the
requested target; any difference, however small relative to the device
exposure step (which does not occur in the write count at all), issues
exactly one corrective write. -/
theorem c7_exposure_write_iff_not_equal (read : Nat → Rat) (step target : Rat) :
    (setExposureCallback true read step target).2 =
      if read 0 = target then 0 else 1 := by
  by_cases h : read 0 = target <;> simp [setExposureCallback, h]

/-- C8: when the brightness service enters the convergence wait, the
deadline is 15 time units (75 ticks of 0.2 units) for targets above 205 and
5 time units (25 ticks) otherwise; under a liveness flag that never clears
the timeout is reported, without validation, at the first tick strictly
past the deadline. -/
theorem c8_brightness_deadline (measure : Nat → Int) (flagAt : Nat → Bool) (target : Int)
    (hne : measure 0 ≠ target) (hflag : ∀ t, flagAt t = true) :
    (setBrightnessCallback true measure flagAt target).success = false ∧
    (setBrightnessCallback true measure flagAt target).validationRan = false ∧
    (setBrightnessCallback true measure flagAt target).exitTick =
      brDeadlineTicks target + 1 ∧
    brDeadlineTicks target = 5 * (if 205 < target then 15 else 5) := by
  have hto := brLoop_flag_true flagAt hflag (brDeadlineTicks target)
  refine ⟨?_, ?_, ?_, ?_⟩
  · simp [setBrightnessCallback, hne, hto]
  · simp [setBrightnessCallback, hne, hto]
  · simp [setBrightnessCallback, hne, hto]
  · by_cases h205 : 205 < target <;> simp [brDeadlineTicks, h205]

/-- C8 witness: target 300 (above 205), measured brightness 0, flag never
clearing: timeout at tick 76, one past the 75-tick (15 unit) deadline. -/
theorem c8_brightness_deadline_witness :
    (setBrightnessCallback true (fun _ => (0 : Int)) alwaysTrueFlag 300).success = false ∧
    (setBrightnessCallback true (fun _ => (0 : Int)) alwaysTrueFlag 300).validationRan
      = false ∧
    (setBrightnessCallback true (fun _ => (0 : Int)) alwaysTrueFlag 300).exitTick = 76 := by
  have h := c8_brightness_deadline (fun _ => (0 : Int)) alwaysTrueFlag 300
    (by decide) (fun t => rfl)
  exact ⟨h.1, h.2.1, by rw [h.2.2.1]; decide⟩

/-- C9: when the measured brightness already equals the target, the service
returns success immediately with no corrective device write, but the
liveness flag, set before the equality check, is left set on this
early-return path. -/
theorem c9_equal_brightness_leaves_flag_set (measure : Nat → Int) (flagAt : Nat → Bool)
    (target : Int) (h : measure 0 = target) :
    (setBrightnessCallback true measure flagAt target).success = true ∧
    (setBrightnessCallback true measure flagAt target).wrote = false ∧
    (setBrightnessCallback true measure flagAt target).flagAfter = true := by
  simp [setBrightnessCallback, h]

/-- C9 witness: measured brightness constantly 100 and target 100. -/
theorem c9_equal_brightness_leaves_flag_set_witness :
    (setBrightnessCallback true (fun _ => (100 : Int)) alwaysTrueFlag 100).success = true ∧
    (setBrightnessCallback true (fun _ => (100 : Int)) alwaysTrueFlag 100).wrote = false ∧
    (setBrightnessCallback true (fun _ => (100 : Int)) alwaysTrueFlag 100).flagAfter
      = true :=
  c9_equal_brightness_leaves_flag_set (fun _ => (100 : Int)) alwaysTrueFlag 100 rfl

/-- C10: the brightness computation is defined exactly on non-empty
buffers: every non-empty buffer of byte values yields the truncated mean,
a value in 0..255, while the empty buffer is the undefined
division-by-zero case, modelled as `none`, so every caller needs at least
one successful grab first. -/
theorem c10_brightness_defined_only_nonempty (data : List Nat) (h : data ≠ [])
    (hb : ∀ b ∈ data, b ≤ 255) :
    calcCurrentBrightness data = some (data.sum / data.length) ∧
    data.sum / data.length ≤ 255 ∧
    calcCurrentBrightness [] = none := by
  have hlen : data.length ≠ 0 := by simpa [List.length_eq_zero] using h
  have hpos : 0 < data.length := Nat.pos_of_ne_zero hlen
  refine ⟨by simp [calcCurrentBrightness, hlen], ?_, rfl⟩
  have hsum : data.sum ≤ 255 * data.length := by
    calc data.sum ≤ data.length • 255 := List.sum_le_card_nsmul data 255 hb
      _ = 255 * data.length := by rw [smul_eq_mul]; ring
  calc data.sum / data.length ≤ 255 * data.length / data.length :=
        Nat.div_le_div_right hsum
    _ = 255 := Nat.mul_div_cancel 255 hpos

/-- C10 witness: the buffer `[100, 200]` yields brightness 150, within
0..255; the empty buffer is undefined. -/
theorem c10_brightness_defined_only_nonempty_witness :
    calcCurrentBrightness [100, 200] = some 150 ∧ (150 : Nat) ≤ 255 ∧
    calcCurrentBrightness [] = none := by
  have h := c10_brightness_defined_only_nonempty [100, 200] (by decide) (by decide)
  exact ⟨h.1.trans (by decide), by decide, h.2.2⟩

end PylonCameraNode
